import Mathlib

/-
  Verification of the web-reader screen-reader agent.

  Shallow embedding of the code under src/:
  - src/src/handlers.ts        PageHandlers (navigation, element cursor, headings, search)
  - src/src/types.ts           NavigationState, ToolResponse
  - src/unnamed/part_011       SpeechQueue (priority queue for utterances)
  - src/docs/gitingest.md      the Python agent variant (determine_action, navigate)

  Conventions of the embedding:
  - a JS string attribute read with getAttribute is modelled as a String where
    the empty string stands for a null result whenever the code only tests the
    value for truthiness or splices it verbatim (null and "" are then
    observationally equal); where null and "" differ (aria-checked) an Option
    String keeps the distinction;
  - JS numbers holding element indices are modelled as Int, Math.max is max;
  - page/browser interaction is a pure environment record: the outcome of
    page.goto and page.evaluate and the element lists a page query would
    return are inputs of the embedded handler;
  - a thrown JS error is Except.error; handlers that mutate this.state return
    the final state in both the ok and the error case;
  - confidence values from the JSON model response are modelled as rationals.
-/

namespace WebReader

/-- Model of JS String.prototype.trim: drops leading and trailing whitespace.
Defined over the character list so that concrete instances reduce inside the
kernel (String.trim of core Lean is well-founded recursion and does not). -/
def strTrim (s : String) : String :=
  ⟨((s.data.dropWhile Char.isWhitespace).reverse.dropWhile Char.isWhitespace).reverse⟩

/-- Model of JS String.prototype.toLowerCase over the character list. -/
def strToLower (s : String) : String :=
  ⟨s.data.map Char.toLower⟩

/-- Whether the first character list starts with the second. -/
def charsStartWith : List Char → List Char → Bool
  | _, [] => true
  | [], _ :: _ => false
  | a :: as, b :: bs => a == b && charsStartWith as bs

/-- Whether the first character list contains the second as a contiguous
segment (JS String.prototype.includes). -/
def charsContain : List Char → List Char → Bool
  | [], needle => needle.isEmpty
  | a :: tl, needle => charsStartWith (a :: tl) needle || charsContain tl needle

/-- Model of JS String.prototype.startsWith. -/
def strStartsWith (s pre : String) : Bool :=
  charsStartWith s.data pre.data

/-- Priority of a speech utterance (src/unnamed/part_011, SpeechOptions).
An absent priority behaves exactly like the normal priority at every use
site of the source (both fail the === comparisons against the high and low
literals), so it is modelled by the normal constructor. -/
inductive Priority where
  | high
  | normal
  | low
deriving DecidableEq

/-- One queued utterance of the SpeechQueue. -/
structure SpeechItem where
  text : String
  priority : Priority
deriving DecidableEq

/-- Models Array.prototype.lastIndexOf(true) on a Bool array: the largest
index holding true, none when there is none (JS returns -1). -/
def lastIndexOfTrue : List Bool → Option Nat
  | [] => none
  | b :: rest =>
    match lastIndexOfTrue rest with
    | some i => some (i + 1)
    | none => if b then some 0 else none

/-- Queue insertion performed by SpeechQueue.speak (src/unnamed/part_011,
lines 25-39): a high item is unshifted to the front, a low item is pushed to
the back, and any other item is spliced directly after the last queued high
item, or unshifted to the front when no high item is queued. -/
def speechInsert (q : List SpeechItem) (item : SpeechItem) : List SpeechItem :=
  match item.priority with
  | Priority.high => item :: q
  | Priority.low => q ++ [item]
  | Priority.normal =>
    match lastIndexOfTrue (q.map (fun i => i.priority == Priority.high)) with
    | some i => q.take (i + 1) ++ item :: q.drop (i + 1)
    | none => item :: q

/-- State of the SpeechQueue that the queue discipline observes: the pending
items and whether an utterance is currently playing. -/
structure SpeechState where
  queue : List SpeechItem
  speaking : Bool
deriving DecidableEq

/-- One call of SpeechQueue.speak up to and including the queue insertion:
stop() is invoked iff interrupt is requested while something is playing (the
returned Bool), then the item is inserted according to its priority.  The
currently playing utterance is not an element of the queue; playback
completion is an asynchronous callback outside this step. -/
def speakEnqueue (st : SpeechState) (item : SpeechItem) (interrupt : Bool) :
    SpeechState × Bool :=
  ({ st with queue := speechInsert st.queue item }, interrupt && st.speaking)

/-- Insertion discipline of a normal-priority item as the amended claim words
it: the item lands immediately after the last queued high-priority item,
i.e. just before the longest queue suffix free of high-priority items; when
no high-priority item is queued it lands at the front of the queue (ahead of
every previously queued normal-priority item). -/
def insertAfterLastHigh : List SpeechItem → SpeechItem → List SpeechItem
  | [], n => [n]
  | x :: xs, n =>
    if x.priority = Priority.high ∨ xs.any (fun i => i.priority == Priority.high) then
      x :: insertAfterLastHigh xs n
    else
      n :: x :: xs

/-- Whole amended insertion discipline: high to the very front, low to the
very back, normal after the last queued high item (or to the front). -/
def insertAmended (q : List SpeechItem) (n : SpeechItem) : List SpeechItem :=
  match n.priority with
  | Priority.high => n :: q
  | Priority.low => q ++ [n]
  | Priority.normal => insertAfterLastHigh q n

/-- Value of the JS expression
el.hasAttribute('checked') || el.getAttribute('aria-checked'):
the Bool true when the checked attribute is present, otherwise the
aria-checked attribute value (a string, or null). -/
inductive CheckedVal where
  | bool (b : Bool)
  | str (s : String)
  | nul
deriving DecidableEq

/-- Properties of one DOM element that getAccessibleDescription reads
(src/src/handlers.ts lines 10-23).  String attributes use "" for null except
aria-checked, where checked === '' counts as checked but null does not. -/
structure ElementInfo where
  role : String := ""
  ariaLabel : String := ""
  tag : String := ""
  inputType : String := ""
  textContent : String := ""
  value : String := ""
  required : Bool := false
  disabledAttr : Bool := false
  ariaDisabledAttr : Bool := false
  expanded : Option String := none
  checkedAttr : Bool := false
  ariaChecked : Option String := none
  describedByText : Option String := none
deriving DecidableEq

/-- The states array built by getAccessibleDescription (src/src/handlers.ts
lines 39-46): required, disabled, expanded or collapsed, checked or
unchecked, in push order. -/
def statesList (e : ElementInfo) : List String :=
  let disabled := e.disabledAttr || e.ariaDisabledAttr
  let checked : CheckedVal :=
    if e.checkedAttr then CheckedVal.bool true
    else
      match e.ariaChecked with
      | some s => CheckedVal.str s
      | none => CheckedVal.nul
  (if e.required then ["required"] else []) ++
  (if disabled then ["disabled"] else []) ++
  (if e.expanded = some "true" then ["expanded"]
   else if e.expanded = some "false" then ["collapsed"] else []) ++
  (if checked = CheckedVal.str "true" ∨ checked = CheckedVal.bool true ∨
      checked = CheckedVal.str "" then ["checked"]
   else if checked = CheckedVal.str "false" then ["unchecked"] else [])

/-- PageHandlers.getAccessibleDescription (src/src/handlers.ts lines 8-64),
the in-page description builder, transcribed statement by statement.
describedByText is the text of the aria-describedby target when that
attribute is truthy and the target element exists, none otherwise. -/
def getAccessibleDescription (e : ElementInfo) : String :=
  let text := strTrim e.textContent
  let desc1 :=
    if e.ariaLabel ≠ "" then e.ariaLabel
    else
      if e.role ≠ "" then e.role ++ " "
      else if e.inputType ≠ "" then e.inputType ++ " input"
      else if e.tag = "a" then "link"
      else if e.tag = "button" then "button"
      else e.tag
  let states : List String := statesList e
  let desc2 :=
    if states.length ≠ 0 then desc1 ++ (" (" ++ String.intercalate ", " states ++ ")")
    else desc1
  let desc3 :=
    if e.value ≠ "" then desc2 ++ (": " ++ e.value)
    else if text ≠ "" ∧ e.ariaLabel = "" then desc2 ++ (": " ++ text)
    else desc2
  let desc4 :=
    match e.describedByText with
    | some t => desc3 ++ (". " ++ t)
    | none => desc3
  strTrim desc4

/-- Identity portion of the accessible description as the claim orders it:
aria-label verbatim, else the role token, else inputType input for
input-like elements, else the tag fallback (anchor to link, button to
button, else the raw tag name).  Separators are the code's formatting, kept
verbatim, since the claim fixes the choice and the order, not the spacing. -/
def specIdentity (e : ElementInfo) : String :=
  if e.ariaLabel ≠ "" then e.ariaLabel
  else
    if e.role ≠ "" then e.role ++ " "
    else if e.inputType ≠ "" then e.inputType ++ " input"
    else if e.tag = "a" then "link"
    else if e.tag = "button" then "button"
    else e.tag

/-- State suffix of the accessible description: the applicable state tokens,
parenthesised, or nothing. -/
def specStates (e : ElementInfo) : Option String :=
  if (statesList e).length ≠ 0 then
    some (" (" ++ String.intercalate ", " (statesList e) ++ ")")
  else none

/-- Content suffix as the claim words it: the input value if present, else
the trimmed text content, the latter only when no aria-label already
supplied the identity. -/
def specContent (e : ElementInfo) : Option String :=
  if e.value ≠ "" then some (": " ++ e.value)
  else if strTrim e.textContent ≠ "" ∧ e.ariaLabel = "" then some (": " ++ strTrim e.textContent)
  else none

/-- Suffix taken from the aria-describedby target, separated by a period. -/
def specDescribed (e : ElementInfo) : Option String :=
  match e.describedByText with
  | some t => some (". " ++ t)
  | none => none

/-- Appends an optional suffix. -/
def addPart (s : String) : Option String → String
  | some p => s ++ p
  | none => s

/-- The accessible description assembled from the claim-side pieces:
identity, then states, then content, then the described-by text, finally
trimmed. -/
def describeViaSpec (e : ElementInfo) : String :=
  strTrim (addPart (addPart (addPart (specIdentity e) (specStates e)) (specContent e))
    (specDescribed e))

/-- Active ElementIndex population (src/src/types.ts NavigationType). -/
inductive NavigationType where
  | all
  | landmarks
  | headings
deriving DecidableEq

/-- The mutable session object (src/src/types.ts NavigationState).  The
browser and page handles are opaque: only their null/non-null status is
observable to the embedded handlers; currentElement is an opaque element
reference modelled by a numeric id. -/
structure NavigationState where
  currentUrl : Option String := none
  browser : Option Unit := none
  page : Option Unit := none
  currentIndex : Int := 0
  currentElement : Option Nat := none
  navigationType : NavigationType := NavigationType.all
  headingLevel : Option Nat := none
deriving DecidableEq

/-- A landmark record returned by navigation (src/src/types.ts). -/
structure LandmarkInfo where
  role : String
  label : String
  tag : String
  text : String
deriving DecidableEq

/-- A heading record (src/src/types.ts HeadingInfo). -/
structure HeadingInfo where
  level : Nat
  text : String
  ariaLabel : String := ""
  isCurrentLevel : Option Bool := none
deriving DecidableEq

/-- A text-search match (src/src/types.ts, matches entries). -/
structure MatchInfo where
  text : String
  context : String
  role : String
deriving DecidableEq

/-- Tool response record (src/src/types.ts ToolResponse): every field is
optional; a field left at none was absent from the JS object literal.  The
matchList field embeds the matches field of the source, renamed because
matches is a reserved word in Lean. -/
structure ToolResponse where
  message : Option String := none
  description : Option String := none
  title : Option String := none
  heading : Option String := none
  elementCount : Option Nat := none
  landmarks : Option (List LandmarkInfo) := none
  elementIndex : Option Int := none
  totalElements : Option Nat := none
  navigationType : Option NavigationType := none
  headingCount : Option Nat := none
  headings : Option (List HeadingInfo) := none
  currentHeadingLevel : Option Nat := none
  matchCount : Option Nat := none
  matchList : Option (List MatchInfo) := none
deriving DecidableEq

/-- Result of the in-page evaluation of handleNavigateTo (src/src/handlers.ts
lines 185-196): title, first h1 text (already trimmed, "" when absent) and
the landmark list. -/
structure PageInfo where
  title : String
  h1 : String
  landmarks : List LandmarkInfo
deriving DecidableEq

/-- Environment of one handleNavigateTo call: whether page.goto resolves
(and its error message when it rejects), whether the subsequent page
evaluation resolves, and what the page then contains. -/
structure NavEnv where
  gotoOk : Bool
  gotoError : String
  evalOk : Bool
  pageInfo : PageInfo
  elements : List ElementInfo
deriving DecidableEq

/-- Checks an Except result for success. -/
def exceptIsOk (x : Except String ToolResponse) : Bool :=
  match x with
  | Except.ok _ => true
  | Except.error _ => false

/-- PageHandlers.handleNavigateTo (src/src/handlers.ts lines 170-217).  The
handler requires an existing page, navigates, records the requested url in
currentUrl, then reads page information and counts focusable elements; any
rejection is rethrown after speaking.  The final NavigationState is returned
alongside the Except result so that state effects of failed calls stay
observable. -/
def handleNavigateTo (env : NavEnv) (url : String) (st : NavigationState) :
    Except String ToolResponse × NavigationState :=
  if st.page.isNone then (Except.error "No page available", st)
  else if !env.gotoOk then (Except.error env.gotoError, st)
  else
    let st1 := { st with currentUrl := some url }
    if !env.evalOk then (Except.error "Evaluation failed", st1)
    else
      let elementCount := env.elements.length
      let description :=
        "Loaded " ++ env.pageInfo.title ++ ". " ++
        (if env.pageInfo.h1 ≠ "" then "Main heading: " ++ env.pageInfo.h1 ++ "." else "") ++
        " Found " ++ toString elementCount ++ " interactive elements."
      (Except.ok { title := some env.pageInfo.title, heading := some env.pageInfo.h1,
                   elementCount := some elementCount,
                   landmarks := some env.pageInfo.landmarks,
                   description := some description }, st1)

/-- PageHandlers.handleNextElement (src/src/handlers.ts lines 248-291): the
elements argument is what getFocusableElements returned.  The cursor is
incremented, clamped to the last index with a boundary message, and the new
current element is described otherwise.  Indexing a stale negative cursor
past the array start yields undefined in JS and the evaluate call then
throws; that path is the final error case. -/
def handleNextElement (elements : List ElementInfo) (st : NavigationState) :
    Except String ToolResponse × NavigationState :=
  if st.page.isNone then (Except.error "No page is currently open", st)
  else if elements.length = 0 then
    (Except.ok { message := some "No interactive elements found" }, st)
  else
    let idx := st.currentIndex + 1
    if idx ≥ (elements.length : Int) then
      let st1 := { st with currentIndex := (elements.length : Int) - 1 }
      (Except.ok { message := some "Reached end of page" }, st1)
    else
      let st1 := { st with currentIndex := idx }
      match (if 0 ≤ idx then elements.get? idx.toNat else none) with
      | some el =>
        (Except.ok { elementIndex := some idx, totalElements := some elements.length,
                     description := some (getAccessibleDescription el) }, st1)
      | none => (Except.error "Cannot read properties of undefined", st1)

/-- PageHandlers.handlePreviousElement (src/src/handlers.ts lines 293-335):
the cursor is decremented through Math.max(cursor - 1, 0); landing on index
0 returns the boundary message without describing any element. -/
def handlePreviousElement (elements : List ElementInfo) (st : NavigationState) :
    Except String ToolResponse × NavigationState :=
  if st.page.isNone then (Except.error "No page is currently open", st)
  else if elements.length = 0 then
    (Except.ok { message := some "No interactive elements found" }, st)
  else
    let idx := max (st.currentIndex - 1) 0
    let st1 := { st with currentIndex := idx }
    if idx = 0 then
      (Except.ok { message := some "At start of page" }, st1)
    else
      match (if 0 ≤ idx then elements.get? idx.toNat else none) with
      | some el =>
        (Except.ok { elementIndex := some idx, totalElements := some elements.length,
                     description := some (getAccessibleDescription el) }, st1)
      | none => (Except.error "Cannot read properties of undefined", st1)

/-- One h1..h6 element as the in-page scripts see it. -/
structure PageHeading where
  level : Nat
  textContent : String
  ariaLabel : String := ""
  ariaHidden : Bool := false
deriving DecidableEq

/-- The in-page evaluation of handleListHeadings (src/src/handlers.ts lines
343-351): h1..h6 elements not aria-hidden, mapped to level, trimmed text and
aria-label. -/
def extractHeadings (hs : List PageHeading) : List HeadingInfo :=
  (hs.filter (fun h => !h.ariaHidden)).map
    (fun h => { level := h.level, text := strTrim h.textContent, ariaLabel := h.ariaLabel })

/-- PageHandlers.handleListHeadings (src/src/handlers.ts lines 337-377): an
empty extraction yields a message response; otherwise the response lists the
headings with the aria-label preferred over the text. -/
def handleListHeadings (hs : List PageHeading) (st : NavigationState) :
    Except String ToolResponse × NavigationState :=
  if st.page.isNone then (Except.error "No page is currently open", st)
  else
    let headings := extractHeadings hs
    if headings.length = 0 then
      (Except.ok { message := some "No headings found on page" }, st)
    else
      (Except.ok { headingCount := some headings.length,
                   headings := some (headings.map (fun h =>
                     { level := h.level,
                       text := if h.ariaLabel ≠ "" then h.ariaLabel else h.text })) }, st)

/-- One text node as the TreeWalker of handleFindText sees it, together with
the parent-element data the match record reads.  Nodes whose parent element
is missing are not modelled: the walker starts below document.body, so every
text node it yields has a parent element. -/
structure TextNode where
  text : String
  parentHidden : Bool := false
  parentText : String := ""
  parentAriaLabel : String := ""
  parentRole : String := ""
  parentTag : String := ""
deriving DecidableEq

/-- Case-insensitive substring test,
node.textContent.toLowerCase().includes(text.toLowerCase()). -/
def containsIgnoringCase (hay needle : String) : Bool :=
  charsContain (strToLower hay).data (strToLower needle).data

/-- The in-page evaluation of handleFindText (src/src/handlers.ts lines
386-416): text nodes outside aria-hidden parents whose content contains the
query case-insensitively, mapped to trimmed text, trimmed parent context and
the parent role falling back to the tag name. -/
def findMatches (nodes : List TextNode) (searchText : String) : List MatchInfo :=
  (nodes.filter (fun n => !n.parentHidden && containsIgnoringCase n.text searchText)).map
    (fun n => { text := strTrim n.text, context := strTrim n.parentText,
                role := if n.parentRole ≠ "" then n.parentRole else n.parentTag })

/-- PageHandlers.handleFindText (src/src/handlers.ts lines 379-440): zero
matches yield a message response quoting the query; otherwise the response
carries the match count, the matches and a description of the first one. -/
def handleFindText (nodes : List TextNode) (searchText : String) (st : NavigationState) :
    Except String ToolResponse × NavigationState :=
  if st.page.isNone then (Except.error "No page is currently open", st)
  else
    let ms := findMatches nodes searchText
    match ms with
    | [] =>
      (Except.ok { message := some ("Text \"" ++ searchText ++ "\" not found on page") }, st)
    | m :: _ =>
      (Except.ok { matchCount := some ms.length,
                   matchList := some ms,
                   description := some ("Found " ++ toString ms.length ++ " matches for \"" ++
                     searchText ++ "\". First match: " ++ m.text) }, st)

/-- PageHandlers.handleNavigateHeadings (src/src/handlers.ts lines 495-568):
navigationType is set to headings first; an empty page yields a message; a
level filter (a truthy level argument) that matches nothing yields the
no-level message while the cursor and heading level stay untouched;
otherwise the cursor resets to 0, the heading level is recorded and the
first relevant heading is described. -/
def handleNavigateHeadings (hs : List PageHeading) (level : Option Nat)
    (st : NavigationState) : Except String ToolResponse × NavigationState :=
  if st.page.isNone then (Except.error "No page is currently open", st)
  else
    let st1 := { st with navigationType := NavigationType.headings }
    if hs.length = 0 then
      (Except.ok { message := some "No headings found on page" }, st1)
    else
      let filteredHeadings : List HeadingInfo := hs.map (fun h =>
        { level := h.level, text := strTrim h.textContent, ariaLabel := h.ariaLabel })
      let levelTruthy : Bool :=
        match level with
        | some l => l != 0
        | none => false
      let relevantHeadings :=
        if levelTruthy then filteredHeadings.filter (fun h => h.level = level.getD 0)
        else filteredHeadings
      match relevantHeadings with
      | [] =>
        (Except.ok { message := some ("No level " ++ toString (level.getD 0) ++
          " headings found") }, st1)
      | current :: _ =>
        let newLevel := if levelTruthy then level.getD 0 else current.level
        let st2 := { st1 with currentIndex := 0, headingLevel := some newLevel }
        let shown := if current.ariaLabel ≠ "" then current.ariaLabel else current.text
        let description :=
          if levelTruthy then
            "Switched to level " ++ toString (level.getD 0) ++ " headings. " ++
            toString relevantHeadings.length ++ " headings found. Current: " ++ shown
          else
            "Switched to heading navigation. " ++ toString hs.length ++
            " total headings. Current level " ++ toString current.level ++ ": " ++ shown
        (Except.ok { navigationType := some NavigationType.headings,
                     elementIndex := some 0,
                     totalElements := some relevantHeadings.length,
                     description := some description,
                     headings := some (relevantHeadings.map (fun h =>
                       { level := h.level,
                         text := if h.ariaLabel ≠ "" then h.ariaLabel else h.text,
                         isCurrentLevel := some (decide (h.level = newLevel)) })),
                     currentHeadingLevel := some newLevel }, st2)

/-- Url scheme normalization of the Python agent's navigate action
(src/docs/gitingest.md, def navigate): a url starting with neither http://
nor https:// is prefixed with https:// before the driver request. -/
def normalizeNavUrl (url : String) : String :=
  if !(strStartsWith url "http://" || strStartsWith url "https://") then "https://" ++ url
  else url

/-- Routing outcome of determine_action: either the error_recovery node with
a user-facing message (clarification), or the graph node of a validated
action. -/
inductive ActionOutcome where
  | errorRecovery (msg : String)
  | proceed (action : String) (nodeName : String)
deriving DecidableEq

/-- The JSON fields determine_action reads from the parsed model response
(src/docs/gitingest.md lines 2829-2835); a missing confidence defaults to 0. -/
structure ParsedResponse where
  action : Option String := none
  confidence : Rat := 0
  context : Option String := none
  nextAction : Option String := none
  nextContext : Option String := none
deriving DecidableEq

/-- Dictionary lookup in the VALID_ACTIONS action-to-node mapping. -/
def lookupAction (validActions : List (String × String)) (a : String) : Option String :=
  (validActions.find? (fun p => p.1 == a)).map (fun p => p.2)

/-- Clarification message for a missing or unknown action. -/
def rephraseMsg : String :=
  "I'm not sure what action you want to take. Could you rephrase your request?"

/-- Clarification message for sub-threshold confidence, listing the page
suggestions when any exist. -/
def lowConfidenceMsg (pageSuggestions : List String) : String :=
  if pageSuggestions ≠ [] then
    "I'm not sure what you want to do. You can try: " ++
      String.intercalate ", " pageSuggestions
  else "I'm not sure about that action. Could you be more specific?"

/-- Decision core of determine_action (src/docs/gitingest.md lines
2837-2869) after the model response has been JSON-parsed: a falsy or unknown
action routes to error_recovery; then the confidence is gated by 0.6 when
the page type is known and 0.7 otherwise, routing to error_recovery below
the threshold; only a validated, confident action proceeds to its graph
node. -/
def determineAction (validActions : List (String × String)) (hasPageType : Bool)
    (pageSuggestions : List String) (r : ParsedResponse) : ActionOutcome :=
  match r.action with
  | none => ActionOutcome.errorRecovery rephraseMsg
  | some a =>
    if a = "" then ActionOutcome.errorRecovery rephraseMsg
    else
      match lookupAction validActions a with
      | none => ActionOutcome.errorRecovery rephraseMsg
      | some node =>
        let threshold : Rat := if hasPageType then 6 / 10 else 7 / 10
        if r.confidence < threshold then
          ActionOutcome.errorRecovery (lowConfidenceMsg pageSuggestions)
        else ActionOutcome.proceed a node

/-- Discriminates the clarification outcome. -/
def isErrorRecovery : ActionOutcome → Bool
  | ActionOutcome.errorRecovery _ => true
  | ActionOutcome.proceed _ _ => false

/-- Element with every attribute absent, a generic focusable element. -/
def plainElement : ElementInfo := {}

/-- Session state with an open page and all other fields at their initial
values. -/
def openPageState : NavigationState := { page := some (), browser := some () }

/-- Session state captured mid-session: heading navigation at cursor 5 with
a cached element reference and an active heading level. -/
def busyState : NavigationState :=
  { currentUrl := some "https://old.example", browser := some (), page := some (),
    currentIndex := 5, currentElement := some 7,
    navigationType := NavigationType.headings, headingLevel := some 2 }

/-- Environment of a navigation that succeeds. -/
def okNavEnv : NavEnv :=
  { gotoOk := true, gotoError := "", evalOk := true,
    pageInfo := { title := "Example Domain", h1 := "Example Domain", landmarks := [] },
    elements := [] }

/-- Environment of a navigation whose page.goto rejects. -/
def failNavEnv : NavEnv :=
  { okNavEnv with gotoOk := false, gotoError := "net::ERR_NAME_NOT_RESOLVED" }

/-- A normal-priority utterance enqueued first. -/
def firstNormal : SpeechItem := { text := "first", priority := Priority.normal }

/-- A normal-priority utterance enqueued second. -/
def secondNormal : SpeechItem := { text := "second", priority := Priority.normal }

/-- Action table with the navigate action only. -/
def demoActions : List (String × String) := [("navigate", "navigate")]

/-- A well-formed classifier response naming a valid action with confidence
0.65. -/
def demoResponse : ParsedResponse := { action := some "navigate", confidence := 65 / 100 }

/-- A page that has exactly one heading, of level 1. -/
def demoHeadings : List PageHeading := [{ level := 1, textContent := " Intro " }]

/-- The boundary response of previous_element. -/
def boundaryResponse : ToolResponse := { message := some "At start of page" }

/-- A list of booleans has no last true index exactly when none of them is
true. -/
theorem lastIndexOfTrue_eq_none_iff (bs : List Bool) :
    lastIndexOfTrue bs = none ↔ bs.any id = false := by
  induction bs with
  | nil => simp [lastIndexOfTrue]
  | cons b tl ih =>
    cases h : lastIndexOfTrue tl with
    | some i =>
      have htl : tl.any id = true := by
        by_contra hc
        rw [ih.mpr (by simpa using hc)] at h
        exact Option.noConfusion h
      simp [lastIndexOfTrue, h, htl]
    | none =>
      have htl : tl.any id = false := ih.mp h
      cases b <;> simp [lastIndexOfTrue, h, htl]

/-- With no high-priority item queued, the normal-insertion recursion puts
the new item at the front. -/
theorem insertAfterLastHigh_of_no_high (n : SpeechItem) (xs : List SpeechItem)
    (h : xs.any (fun i => i.priority == Priority.high) = false) :
    insertAfterLastHigh xs n = n :: xs := by
  cases xs with
  | nil => rfl
  | cons y ys =>
    have hy : ¬ y.priority = Priority.high := by
      intro hc
      simp [List.any_cons, hc] at h
    have hys : ys.any (fun i => i.priority == Priority.high) = false := by
      simp [List.any_cons] at h
      simpa using h.2
    simp [insertAfterLastHigh, hy, hys]

/-- The splice after the last high index computed through lastIndexOfTrue
equals the recursive after-the-last-high insertion. -/
theorem speechInsert_eq_insertAmended (q : List SpeechItem) (item : SpeechItem) :
    speechInsert q item = insertAmended q item := by
  cases hp : item.priority with
  | high => simp [speechInsert, insertAmended, hp]
  | low => simp [speechInsert, insertAmended, hp]
  | normal =>
    simp only [speechInsert, insertAmended, hp]
    induction q with
    | nil => rfl
    | cons x xs ih =>
      cases h : lastIndexOfTrue (xs.map (fun i => i.priority == Priority.high)) with
      | none =>
        have hxs : xs.any (fun i => i.priority == Priority.high) = false := by
          have := (lastIndexOfTrue_eq_none_iff _).mp h
          simpa [List.any_map, Function.comp] using this
        by_cases hx : x.priority = Priority.high
        · simp [lastIndexOfTrue, List.map_cons, h, hx, insertAfterLastHigh, hxs,
            insertAfterLastHigh_of_no_high]
        · simp [lastIndexOfTrue, List.map_cons, h, hx, insertAfterLastHigh, hxs]
      | some i =>
        have hxs : xs.any (fun i => i.priority == Priority.high) = true := by
          by_contra hc
          have hc2 : xs.any (fun i => i.priority == Priority.high) = false := by
            simpa using hc
          have : lastIndexOfTrue (xs.map (fun i => i.priority == Priority.high)) = none := by
            rw [lastIndexOfTrue_eq_none_iff]
            simpa [List.any_map, Function.comp] using hc2
          rw [this] at h
          exact Option.noConfusion h
        have ih2 : xs.take (i + 1) ++ item :: xs.drop (i + 1) = insertAfterLastHigh xs item := by
          rw [h] at ih
          exact ih
        simp [lastIndexOfTrue, List.map_cons, h, insertAfterLastHigh, hxs,
          List.take_succ_cons, List.drop_succ_cons, ih2]

/-- C1, counterexample: a successful handleNavigateTo called from a session
in heading mode at cursor 5 with a cached element reference returns
successfully yet leaves navigationType at headings, the cursor at 5, the
heading level and the cached element reference set, contradicting the
claimed reset to ALL/0/null/null. -/
theorem c1_reset_counterexample :
    exceptIsOk (handleNavigateTo okNavEnv "https://new.example" busyState).1 = true ∧
    (handleNavigateTo okNavEnv "https://new.example" busyState).2.navigationType ≠
      NavigationType.all ∧
    (handleNavigateTo okNavEnv "https://new.example" busyState).2.currentIndex ≠ 0 ∧
    (handleNavigateTo okNavEnv "https://new.example" busyState).2.headingLevel ≠ none ∧
    (handleNavigateTo okNavEnv "https://new.example" busyState).2.currentElement ≠ none := by
  refine ⟨rfl, ?_, ?_, ?_, ?_⟩ <;> decide

/-- C1, amended: after a successful handleNavigateTo(url), currentUrl equals
the given url and every other NavigationState field (navigationType,
headingLevel, currentIndex, currentElement) retains the value it held before
the call; no reset to ALL/0/null is performed by this handler. -/
theorem c1_amended_no_reset : ∀ (env : NavEnv) (url : String) (st : NavigationState),
    st.page = some () → env.gotoOk = true → env.evalOk = true →
    (handleNavigateTo env url st).2 = { st with currentUrl := some url } ∧
    exceptIsOk (handleNavigateTo env url st).1 = true := by
  intro env url st hp hg he
  simp [handleNavigateTo, hp, hg, he, exceptIsOk]

/-- C1, witness for the amended theorem at a concrete session and url. -/
theorem c1_amended_no_reset_witness :
    (handleNavigateTo okNavEnv "https://new.example" busyState).2 =
      { busyState with currentUrl := some "https://new.example" } ∧
    exceptIsOk (handleNavigateTo okNavEnv "https://new.example" busyState).1 = true :=
  c1_amended_no_reset okNavEnv "https://new.example" busyState rfl rfl rfl

/-- C2: with a non-empty element list of length N and an open page,
next_element called at cursor N-1 returns the boundary message Reached end
of page and leaves the cursor at N-1 (no wrap, no throw), and
previous_element called at cursor 0 returns At start of page and leaves the
cursor at 0. -/
theorem c2_boundary_clamp : ∀ (elements : List ElementInfo) (st : NavigationState),
    st.page = some () → elements ≠ [] →
    (st.currentIndex = (elements.length : Int) - 1 →
      handleNextElement elements st =
        (Except.ok { message := some "Reached end of page" },
         { st with currentIndex := (elements.length : Int) - 1 })) ∧
    (st.currentIndex = 0 →
      handlePreviousElement elements st =
        (Except.ok { message := some "At start of page" },
         { st with currentIndex := 0 })) := by
  intro elements st hp hne
  have h0 : elements.length ≠ 0 := by simpa [List.length_eq_zero] using hne
  constructor
  · intro hc
    have hge : st.currentIndex + 1 ≥ (elements.length : Int) := by
      rw [hc]; omega
    simp [handleNextElement, hp, h0, hge, hc]
  · intro hc
    have hmax : max (st.currentIndex - 1) 0 = 0 := by
      rw [hc]; decide
    simp [handlePreviousElement, hp, h0, hmax, hc]

/-- C2, witness at a one-element page whose cursor 0 is both N-1 and 0. -/
theorem c2_boundary_clamp_witness :
    handleNextElement [plainElement] openPageState =
      (Except.ok { message := some "Reached end of page" },
       { openPageState with currentIndex := (1 : Int) - 1 }) ∧
    handlePreviousElement [plainElement] openPageState =
      (Except.ok { message := some "At start of page" },
       { openPageState with currentIndex := 0 }) :=
  ⟨(c2_boundary_clamp [plainElement] openPageState rfl (by decide)).1 (by decide),
   (c2_boundary_clamp [plainElement] openPageState rfl (by decide)).2 rfl⟩

/-- C3: whenever the parsed confidence is below the active threshold (0.6
with page-type context, 0.7 without), determine_action routes to the
error_recovery clarification outcome and never proceeds to an action node,
so no action reaches the planner or is executed. -/
theorem c3_confidence_gate : ∀ (validActions : List (String × String)) (hasPageType : Bool)
    (pageSuggestions : List String) (r : ParsedResponse),
    r.confidence < (if hasPageType then (6 : Rat) / 10 else 7 / 10) →
    isErrorRecovery (determineAction validActions hasPageType pageSuggestions r) = true := by
  intro va hpt ps r hconf
  rcases hr : r.action with _ | a
  · simp [determineAction, hr, isErrorRecovery]
  · by_cases ha : a = ""
    · simp [determineAction, hr, ha, isErrorRecovery]
    · rcases hl : lookupAction va a with _ | node
      · simp [determineAction, hr, ha, hl, isErrorRecovery]
      · simp [determineAction, hr, ha, hl, hconf, isErrorRecovery]

/-- C3, witness: a valid navigate response with confidence 0.65 and no page
context is below the 0.7 threshold and routes to clarification. -/
theorem c3_confidence_gate_witness :
    isErrorRecovery (determineAction demoActions false [] demoResponse) = true :=
  c3_confidence_gate demoActions false [] demoResponse (by norm_num [demoResponse])

set_option maxHeartbeats 1000000 in
/-- C4: the accessible description equals the claim-side assembly: identity
chosen by the precedence aria-label, else role, else inputType input, else
the tag fallback (a to link, button to button, else the raw tag), then the
state suffix, then the content (value if present, else trimmed text content,
the latter only when no aria-label supplied the identity), then the
described-by text. -/
theorem c4_describer_precedence : ∀ e : ElementInfo,
    getAccessibleDescription e = describeViaSpec e := by
  intro e
  simp only [getAccessibleDescription, describeViaSpec, specIdentity, specStates,
    specContent, specDescribed]
  rcases hq : e.describedByText with _ | t <;> simp only [hq] <;> split_ifs <;> rfl

/-- C5, counterexample: with one normal-priority utterance queued and
playback in progress, enqueueing a second normal-priority utterance places
it in front of the first instead of after it, so normal-priority utterances
are not appended after previously enqueued normal-priority items. -/
theorem c5_normal_order_counterexample :
    (speakEnqueue { queue := [firstNormal], speaking := true } secondNormal false).1.queue =
      [secondNormal, firstNormal] ∧
    (speakEnqueue { queue := [firstNormal], speaking := true } secondNormal false).1.queue ≠
      [firstNormal, secondNormal] := by
  exact ⟨rfl, by decide⟩

/-- C5, amended: playback is stopped exactly when interrupt is requested
while speaking; a high-priority utterance is unshifted to the very front of
the queue, a low-priority utterance is appended at the very end, and a
normal-priority utterance is inserted immediately after the last queued
high-priority item — in front of previously queued normal-priority items —
or at the front of the queue when no high-priority item is queued. -/
theorem c5_amended_queue_discipline : ∀ (st : SpeechState) (item : SpeechItem)
    (interrupt : Bool),
    (speakEnqueue st item interrupt).2 = (interrupt && st.speaking) ∧
    (speakEnqueue st item interrupt).1.speaking = st.speaking ∧
    (speakEnqueue st item interrupt).1.queue = insertAmended st.queue item := by
  intro st item interrupt
  exact ⟨rfl, rfl, speechInsert_eq_insertAmended st.queue item⟩

/-- C6: when page.goto rejects (timeout, DNS, HTTP), handleNavigateTo
rethrows the failure and every NavigationState field — currentUrl included —
keeps the exact value it held before the call. -/
theorem c6_failed_navigation_preserves_state : ∀ (env : NavEnv) (url : String)
    (st : NavigationState), st.page = some () → env.gotoOk = false →
    handleNavigateTo env url st = (Except.error env.gotoError, st) := by
  intro env url st hp hg
  simp [handleNavigateTo, hp, hg]

/-- C6, witness: a failing navigation from a mid-session state leaves that
state untouched and surfaces the goto error. -/
theorem c6_failed_navigation_preserves_state_witness :
    handleNavigateTo failNavEnv "https://unreachable.example" busyState =
      (Except.error "net::ERR_NAME_NOT_RESOLVED", busyState) :=
  c6_failed_navigation_preserves_state failNavEnv "https://unreachable.example" busyState
    rfl rfl

/-- C7, counterexample: navigating to example.com — a url with no scheme —
succeeds in the TypeScript handler with currentUrl recorded as example.com
verbatim, not as https://example.com as the claim states. -/
theorem c7_scheme_counterexample :
    strStartsWith "example.com" "http://" = false ∧
    strStartsWith "example.com" "https://" = false ∧
    exceptIsOk (handleNavigateTo okNavEnv "example.com" openPageState).1 = true ∧
    (handleNavigateTo okNavEnv "example.com" openPageState).2.currentUrl =
      some "example.com" ∧
    (handleNavigateTo okNavEnv "example.com" openPageState).2.currentUrl ≠
      some "https://example.com" := by
  refine ⟨rfl, rfl, rfl, rfl, by decide⟩

/-- C7, amended: the TypeScript handleNavigateTo navigates to and records
the input url verbatim, with no scheme normalization; prefixing https:// to
scheme-less urls is done only by the Python agent's navigate action, which
does not record a currentUrl. -/
theorem c7_amended_verbatim_url :
    (∀ (env : NavEnv) (url : String) (st : NavigationState),
      st.page = some () → env.gotoOk = true →
      (handleNavigateTo env url st).2.currentUrl = some url) ∧
    (∀ url : String,
      (strStartsWith url "http://" || strStartsWith url "https://") = false →
      normalizeNavUrl url = "https://" ++ url) := by
  constructor
  · intro env url st hp hg
    by_cases he : env.evalOk <;> simp [handleNavigateTo, hp, hg, he]
  · intro url h
    simp [normalizeNavUrl, h]

/-- C7, witness for the amended theorem on the url example.com. -/
theorem c7_amended_verbatim_url_witness :
    (handleNavigateTo okNavEnv "example.com" openPageState).2.currentUrl =
      some "example.com" ∧
    normalizeNavUrl "example.com" = "https://example.com" :=
  ⟨c7_amended_verbatim_url.1 okNavEnv "example.com" openPageState rfl rfl,
   c7_amended_verbatim_url.2 "example.com" rfl⟩

/-- C8: on an open page, list_headings with zero extracted headings returns
the message No headings found on page and find_text with zero matches
returns the message Text "query" not found on page; both are ok results,
never errors, and the state is untouched. -/
theorem c8_empty_results_are_messages : ∀ (hs : List PageHeading) (nodes : List TextNode)
    (q : String) (st : NavigationState), st.page = some () →
    (extractHeadings hs = [] →
      handleListHeadings hs st =
        (Except.ok { message := some "No headings found on page" }, st)) ∧
    (findMatches nodes q = [] →
      handleFindText nodes q st =
        (Except.ok { message := some ("Text \"" ++ q ++ "\" not found on page") }, st)) := by
  intro hs nodes q st hp
  constructor
  · intro hempty
    simp [handleListHeadings, hp, hempty]
  · intro hempty
    simp [handleFindText, hp, hempty]

/-- C8, witness: an empty page and the query pricing produce exactly the two
message responses. -/
theorem c8_empty_results_are_messages_witness :
    handleListHeadings [] openPageState =
      (Except.ok { message := some "No headings found on page" }, openPageState) ∧
    handleFindText [] "pricing" openPageState =
      (Except.ok { message := some "Text \"pricing\" not found on page" }, openPageState) :=
  ⟨(c8_empty_results_are_messages [] [] "pricing" openPageState rfl).1 rfl,
   (c8_empty_results_are_messages [] [] "pricing" openPageState rfl).2 rfl⟩

/-- C9: whenever previous_element on a non-empty element list leaves the
cursor at index 0 — including a legitimate move from index 1 — the response
is the boundary message At start of page with no description, so element 0
is never described by previous_element. -/
theorem c9_previous_never_describes_first : ∀ (elements : List ElementInfo)
    (st : NavigationState), st.page = some () → elements ≠ [] →
    ∀ (resp : ToolResponse) (st1 : NavigationState),
      handlePreviousElement elements st = (Except.ok resp, st1) →
      st1.currentIndex = 0 →
      resp.message = some "At start of page" ∧ resp.description = none := by
  intro elements st hp hne resp st1 hrun hidx
  have h0 : elements.length ≠ 0 := by simpa [List.length_eq_zero] using hne
  by_cases hz : max (st.currentIndex - 1) 0 = 0
  · simp [handlePreviousElement, hp, h0, hz] at hrun
    exact ⟨by rw [← hrun.1], by rw [← hrun.1]⟩
  · exfalso
    apply hz
    have h3 : (handlePreviousElement elements st).2 =
        { st with currentIndex := max (st.currentIndex - 1) 0 } := by
      simp [handlePreviousElement, hp, h0]
      split
      · rfl
      · split <;> rfl
    have h5 : st1.currentIndex = max (st.currentIndex - 1) 0 := by
      have h2 := congrArg (fun p : Except String ToolResponse × NavigationState =>
        p.2.currentIndex) hrun
      simp only [] at h2
      rw [h3] at h2
      exact h2.symm
    rw [← h5, hidx]

/-- C9, witness: previous_element from cursor 1 on a two-element page lands
on cursor 0 and yields the bare boundary response. -/
theorem c9_previous_never_describes_first_witness :
    boundaryResponse.message = some "At start of page" ∧
    boundaryResponse.description = none :=
  c9_previous_never_describes_first [plainElement, plainElement]
    { openPageState with currentIndex := 1 } rfl (by decide) boundaryResponse
    { openPageState with currentIndex := 0 } rfl rfl

/-- C10: on an open page that has headings but none of the requested level
L ≥ 1, navigate_headings(L) returns the message No level L headings found
and the final state differs from the initial one exactly by navigationType,
which is set to headings before the emptiness check; currentIndex,
headingLevel and every other field keep their prior values. -/
theorem c10_no_level_match_message : ∀ (hs : List PageHeading) (L : Nat)
    (st : NavigationState), st.page = some () → hs ≠ [] → 0 < L →
    (∀ h ∈ hs, h.level ≠ L) →
    handleNavigateHeadings hs (some L) st =
      (Except.ok { message := some ("No level " ++ toString L ++ " headings found") },
       { st with navigationType := NavigationType.headings }) := by
  intro hs L st hp hne hL hnone
  have h0 : hs.length ≠ 0 := by simpa [List.length_eq_zero] using hne
  have hLb : (L != 0) = true := by simpa using Nat.pos_iff_ne_zero.mp hL
  have hfilter : (hs.map (fun h =>
      ({ level := h.level, text := strTrim h.textContent,
         ariaLabel := h.ariaLabel } : HeadingInfo))).filter
      (fun h => decide (h.level = L)) = [] := by
    rw [List.filter_eq_nil_iff]
    intro a ha
    rcases List.mem_map.mp ha with ⟨h, hh, rfl⟩
    simpa using hnone h hh
  simp [handleNavigateHeadings, hp, h0, hLb, hfilter]

/-- C10, witness: requesting level 2 on a page whose only heading is level 1
yields the no-level-2 message and flips only navigationType. -/
theorem c10_no_level_match_message_witness :
    handleNavigateHeadings demoHeadings (some 2) busyState =
      (Except.ok { message := some "No level 2 headings found" },
       { busyState with navigationType := NavigationType.headings }) :=
  c10_no_level_match_message demoHeadings 2 busyState rfl (by decide) (by decide)
    (by decide)

end WebReader
